import Mathlib

/-!
Shallow embedding of the per-device USB session manager of the ckb daemon
(`src/ckb-daemon/usb.c`): the command queue (`usbqueue`), session setup
(`setupusb`), revert/reset recovery (`revertusb`, `_resetusb`,
`usb_tryreset`) and teardown (`closeusb`).

External collaborators (`getfwversion`, `hwloadprofile`, `findstore`,
`os_resetusb`, `usbdequeue`, `setactive`, ...) are not part of the source
file; their outcomes are supplied through explicit environment records and
their invocations are recorded in an event trace, so that properties such
as "the profile store is never consulted" are statements about the trace.

Machine integers: the C code only compares the small return codes 0, -1,
-2 and feature bitmasks far below any overflow boundary, so return codes
are `Int` and bitmasks are `Nat` with `&&&`/`|||`.
-/

namespace Ckb

/-- Modelled from the spec: fixed command-queue capacity (`QUEUE_LEN` comes
from the missing `usb.h` header; §4.1 "fixed queue capacity"). The concrete
value is irrelevant to the theorems below, which hold for the constant. -/
def QUEUE_LEN : Nat := 40

/-- Modelled from the spec: feature bit for RGB capability (missing
`usb.h`; §3 "features: bitmask of capabilities"). -/
def FEAT_RGB : Nat := 1

/-- Modelled from the spec: feature bit for firmware-version reporting. -/
def FEAT_FWVERSION : Nat := 2

/-- Modelled from the spec: feature bit for firmware updating. -/
def FEAT_FWUPDATE : Nat := 4

/-- Modelled from the spec: feature bit for key binding. -/
def FEAT_BIND : Nat := 8

/-- Modelled from the spec: feature bit for notifications. -/
def FEAT_NOTIFY : Nat := 16

/-- Modelled from the spec: the full standard feature set of an RGB device
(§4.2 "all standard RGB features"). Contains `FEAT_RGB`. -/
def FEAT_STD_RGB : Nat :=
  FEAT_RGB ||| FEAT_FWVERSION ||| FEAT_FWUPDATE ||| FEAT_BIND ||| FEAT_NOTIFY

/-- Modelled from the spec: the minimal non-RGB feature set (§4.2); it
does not contain `FEAT_RGB`. -/
def FEAT_STD_NRGB : Nat := FEAT_FWVERSION ||| FEAT_BIND ||| FEAT_NOTIFY

/-- The process-wide feature exclusion mask, initialized to `-1` in the C
source (no features excluded); on the modelled feature bits `& -1` is the
identity, i.e. the all-ones mask over the five bits. -/
def features_mask : Nat := 31

/-- Modelled from the spec: product identifiers from the missing `usb.h`
(§4.2 "fixed identifier table"); five distinct codes, three RGB-capable. -/
def P_K65 : Int := 0x1B17

/-- Modelled from the spec: K70 RGB product id. -/
def P_K70 : Int := 0x1B13

/-- Modelled from the spec: K70 non-RGB product id. -/
def P_K70_NRGB : Int := 0x1B09

/-- Modelled from the spec: K95 RGB product id. -/
def P_K95 : Int := 0x1B11

/-- Modelled from the spec: K95 non-RGB product id. -/
def P_K95_NRGB : Int := 0x1B08

/-- Modelled from the spec: Corsair vendor id. -/
def V_CORSAIR : Int := 0x1B1C

/-- Modelled from the spec: `IS_RGB(vendor, product)` from the missing
`usb.h`: the product code determines RGB capability. -/
def IS_RGB (vendor product : Int) : Bool :=
  product == P_K65 || product == P_K70 || product == P_K95

/-- Modelled from the spec: the system keymap identifier (`keymap_system`,
defined outside the source file). -/
def keymap_system : Nat := 0

/-- Modelled from the spec: minimum firmware version not requiring an
update; `NEEDS_FW_UPDATE` (missing `usb.h`) compares `fwversion` against
it. The concrete threshold is irrelevant to the theorems below. -/
def FW_REQUIRED : Nat := 120

/-- A queued outbound message; the payload bytes are opaque to the session
manager (fixed `MSG_SIZE` buffers), so a message is an abstract tag. -/
abbrev Msg := Nat

/-- The in-memory profile (`usbprofile`): serial, keymap, current mode and
the number of mode slots present (`getusbmode` grows it). -/
structure Profile where
  serial : Nat
  keymap : Nat
  currentmode : Nat
  modes : Nat
deriving Repr, DecidableEq

/-- The device session record (`usbdevice`). The C `queuecount` plus the
first `queuecount` queue buffers are represented by the single list
`queue` of pending messages; `infifo` stands for the control-path handle,
`handle` for the USB transport handle. `queueAlloc`, `inputOpen`,
`mutexLocked`, `keymutexLocked` track resource/lock state. -/
structure USBDev where
  model : Nat
  vendor : Int
  product : Int
  features : Nat
  name : String
  active : Bool
  pollrate : Int
  profile : Profile
  queue : List Msg
  fwversion : Nat
  hw : Bool
  handle : Bool
  infifo : Bool
  queueAlloc : Bool
  inputOpen : Bool
  mutexLocked : Bool
  keymutexLocked : Bool
deriving Repr, DecidableEq

/-- The C field `kb->queuecount`: number of pending queued messages. -/
def queuecount (kb : USBDev) : Nat := kb.queue.length

/-- Macro `HAS_FEATURES(kb, f)`: all bits of `f` are set in `kb->features`. -/
def HAS_FEATURES (kb : USBDev) (f : Nat) : Bool := kb.features &&& f == f

/-- Macro `NEEDS_FW_UPDATE(kb)` (modelled from the spec, macro in the missing
`usb.h`): the recorded firmware version is below the required one. -/
def NEEDS_FW_UPDATE (kb : USBDev) : Bool := kb.fwversion < FW_REQUIRED

/-- Events recording invocations of external collaborators, in call
order. -/
inductive Ev where
  | makedevpathEv
  | rmdevpathEv
  | inputopenEv
  | inputcloseEv
  | indicatorsEv
  | nk95 (hwon : Bool)
  | writefwEv
  | allocQueueEv
  | getfwEv
  | findstoreEv
  | hwload (pull : Bool)
  | addstoreEv (serial : Nat) (p : Profile)
  | freeprofileEv
  | freeQueueBufsEv
  | closehandleEv
  | notifyconnEv (connected : Bool)
  | updateconnEv
  | osresetEv
  | dequeueAttemptEv
  | setactiveEv (b : Bool)
  | updatergbEv
  | mutexOpEv (which : Nat) (op : Nat)
deriving Repr, DecidableEq

/-- Lock bookkeeping events: `mutexOpEv which op` with `which` 0 =
`mutex`, 1 = `keymutex` and `op` 0 = init, 1 = lock, 2 = unlock,
3 = destroy. -/
def mOp (which op : Nat) : Ev := Ev.mutexOpEv which op

/-- Function `usbqueue(kb, messages, count)` (usb.c lines 16-26): refuse with a
plain `0` when there is no transport handle or no RGB capability; refuse
with `-1` when the messages would not all fit; otherwise append them all
and report `0`. -/
def usbqueue (kb : USBDev) (messages : List Msg) : Int × USBDev :=
  if !kb.handle || !HAS_FEATURES kb FEAT_RGB then
    (0, kb)
  else if QUEUE_LEN < kb.queue.length + messages.length then
    (-1, kb)
  else
    (0, { kb with queue := kb.queue ++ messages })

/-- A sequence of `usbqueue` calls, threaded through the device state. -/
def applyQueueCalls (kb : USBDev) : List (List Msg) → USBDev
  | [] => kb
  | ms :: rest => applyQueueCalls (usbqueue kb ms).2 rest

/-- The zeroed session record produced by `memset(kb, 0, sizeof(usbdevice))`
at the end of `closeusb`. -/
def emptyDev : USBDev where
  model := 0
  vendor := 0
  product := 0
  features := 0
  name := ""
  active := false
  pollrate := 0
  profile := ⟨0, 0, 0, 0⟩
  queue := []
  fwversion := 0
  hw := false
  handle := false
  infifo := false
  queueAlloc := false
  inputOpen := false
  mutexLocked := false
  keymutexLocked := false

/-- Function `closeusb(kb)` (usb.c lines 190-223): no-op success when the control
path was never created (`!kb->infifo`); otherwise close the input surface,
free the queue buffers, persist the profile to the store iff
`fwversion != 0` (else free it), close the handle — all only when a
transport handle exists — then remove the control path, release and
destroy both locks and zero the record. Returns `0` always. -/
def closeusb (kb : USBDev) : Int × USBDev × List Ev :=
  if !kb.infifo then
    (0, kb, [])
  else
    let trMid : List Ev :=
      if kb.handle then
        [Ev.inputcloseEv, Ev.updateconnEv, Ev.freeQueueBufsEv] ++
        (if kb.fwversion == 0 then [Ev.freeprofileEv]
         else [Ev.addstoreEv kb.profile.serial kb.profile]) ++
        [Ev.closehandleEv, Ev.notifyconnEv false]
      else
        [Ev.updateconnEv]
    (0, emptyDev,
      [mOp 1 1] ++ trMid ++
      [Ev.rmdevpathEv, mOp 1 2, mOp 1 3, mOp 0 2, mOp 0 3])

/-- Modelled from the spec: `getusbmode(i, profile, keymap)` (profile.c,
not in the source tree; §6: "synthesizes/fetches a named mode slot within
a profile", usb.c comment "make sure at least 3 modes are available"):
ensures at least `i + 1` mode slots exist. Assignments of the returned
mode to `currentmode` are modelled at the call sites. -/
def getusbmode (i : Nat) (p : Profile) : Profile :=
  { p with modes := max p.modes (i + 1) }

/-- The default device name made up at usb.c line 35. -/
def mkName (model : Nat) (rgb : Bool) : String :=
  "Corsair K" ++ toString model ++ (if rgb then " RGB" else "")

/-- Outcomes of the external calls consumed by `setupusb`:
`makedevpath_ok` / `inputopen_ok` report creation of the control path and
input surface, `fwresult` is `getfwversion`'s outcome (`none` = query
failed, `some v` = success recording version `v`), `store` is
`findstore`'s answer for the device serial, and `hwload_fail pull` tells
whether `hwloadprofile(kb, pull)` fails. -/
structure SetupEnv where
  makedevpath_ok : Bool
  inputopen_ok : Bool
  fwresult : Option Nat
  store : Option Profile
  hwload_fail : Bool → Bool

/-- Function `setupusb(kb, vendor, product)` (usb.c lines 28-120). Returns the C
return code, the final session record and the trace of external calls.
The global `features_mask` is passed explicitly as `mask`. -/
def setupusb (env : SetupEnv) (mask : Nat) (kb0 : USBDev)
    (vendor product : Int) : Int × USBDev × List Ev :=
  let model1 : Nat :=
    if product == P_K65 then 65
    else if product == P_K70 || product == P_K70_NRGB then 70
    else 95
  let features1 : Nat :=
    (if IS_RGB vendor product then FEAT_STD_RGB else FEAT_STD_NRGB) &&& mask
  let kb1 : USBDev := { kb0 with
    model := model1
    vendor := vendor
    product := product
    features := features1
    name := if kb0.name == "" then
              mkName model1 (features1 &&& FEAT_RGB == FEAT_RGB)
            else kb0.name
    mutexLocked := true }
  let tr1 : List Ev := [mOp 0 0, mOp 1 0, mOp 0 1, Ev.makedevpathEv]
  if !env.makedevpath_ok then
    (-1, { kb1 with mutexLocked := false },
      tr1 ++ [mOp 0 2, mOp 0 3, mOp 1 3])
  else
  let kb2 : USBDev := { kb1 with infifo := true }
  let tr2 := tr1 ++ [Ev.inputopenEv]
  if !env.inputopen_ok then
    (-1, { kb2 with infifo := false, mutexLocked := false },
      tr2 ++ [Ev.rmdevpathEv, mOp 0 2, mOp 0 3, mOp 1 3])
  else
  let kb3 : USBDev := { kb2 with inputOpen := true }
  let tr3 := tr2 ++ [Ev.indicatorsEv]
  if !HAS_FEATURES kb3 FEAT_RGB then
    -- Non-RGB board: software mode, no queue, RGB fields for consistency
    let p := { getusbmode 0 { kb3.profile with keymap := keymap_system }
               with currentmode := 0 }
    let p := if kb3.model == 95 then getusbmode 2 (getusbmode 1 p) else p
    (0, { kb3 with active := true, pollrate := -1, profile := p },
      tr3 ++ [Ev.nk95 false, Ev.writefwEv])
  else
  let kb4 : USBDev := { kb3 with queueAlloc := true }
  let tr4 := tr3 ++ [Ev.allocQueueEv, Ev.getfwEv]
  let fail : Bool := env.fwresult.isNone
  let kb5 : USBDev := match env.fwresult with
    | some v => { kb4 with fwversion := v }
    | none => kb4
  if !fail && NEEDS_FW_UPDATE kb5 then
    -- Device needs a firmware update: finish setting up but do nothing
    let p := { getusbmode 0 { kb5.profile with keymap := keymap_system }
               with currentmode := 0 }
    let p := getusbmode 2 (getusbmode 1 p)
    (0, { kb5 with features := FEAT_RGB ||| FEAT_FWVERSION ||| FEAT_FWUPDATE,
                   active := true, profile := p }, tr4)
  else
  let tr5 := tr4 ++ [Ev.findstoreEv]
  match env.store with
  | some st =>
    let p := if kb5.model == 95 then getusbmode 2 (getusbmode 1 st) else st
    let kb6 : USBDev := { kb5 with profile := p }
    if fail then (-2, kb6, tr5)
    else if env.hwload_fail false then (-2, kb6, tr5 ++ [Ev.hwload false])
    else (0, { kb6 with hw := true }, tr5 ++ [Ev.hwload false])
  | none =>
    let p := { getusbmode 0 { kb5.profile with keymap := keymap_system }
               with currentmode := 0 }
    let p := if kb5.model == 95 then getusbmode 2 (getusbmode 1 p) else p
    let kb6 : USBDev := { kb5 with profile := p }
    if fail then (-2, kb6, tr5)
    else if env.hwload_fail true then (-2, kb6, tr5 ++ [Ev.hwload true])
    else (0, { kb6 with hw := true }, tr5 ++ [Ev.hwload true])

/-- Modelled from the spec: the drain side of `usbdequeue` (§4.1 "a
companion drain primitive removes and transmits the oldest entry,
decrementing `queuecount`"). `f i` is the transport's result for the
`i`-th dequeue attempt of a loop: non-positive means nothing was sent.
`drain f q i` runs `while(queuecount > 0)` from attempt index `i`,
returning whether the loop completed, the remaining queue and the number
of dequeue attempts made; a non-positive result aborts at once. -/
def drain (f : Nat → Int) : List Msg → Nat → Bool × List Msg × Nat
  | [], _ => (true, [], 0)
  | m :: t, i =>
    if f i ≤ 0 then (false, m :: t, 1)
    else
      let r := drain f t (i + 1)
      (r.1, r.2.1, r.2.2 + 1)

/-- Function `revertusb(kb)` (usb.c lines 122-144): no-op success when a firmware
update is pending; for non-RGB boards re-enable hardware mode; otherwise
drain the queue (dequeue results `f`), deactivate — `setactive(kb, 0)`,
external, modelled as flipping `active` and enqueueing the deactivation
command traffic `deactMsgs` (§2: the queue is fed by upper layers; §4.4:
a second drain follows deactivation) — then drain again (results `g`).
A drain attempt yielding nothing aborts with `-1` immediately. -/
def revertusb (f g : Nat → Int) (deactMsgs : List Msg) (kb : USBDev) :
    Int × USBDev × List Ev :=
  if NEEDS_FW_UPDATE kb then (0, kb, [])
  else if !HAS_FEATURES kb FEAT_RGB then (0, kb, [Ev.nk95 true])
  else
    let d1 := drain f kb.queue 0
    let kb1 : USBDev := { kb with queue := d1.2.1 }
    let tr1 : List Ev := List.replicate d1.2.2 Ev.dequeueAttemptEv
    if !d1.1 then (-1, kb1, tr1)
    else
      let kb2 : USBDev := { kb1 with active := false,
                                     queue := kb1.queue ++ deactMsgs }
      let tr2 := tr1 ++ [Ev.setactiveEv false]
      let d2 := drain g kb2.queue 0
      let kb3 : USBDev := { kb2 with queue := d2.2.1 }
      let tr3 := tr2 ++ List.replicate d2.2.2 Ev.dequeueAttemptEv
      if !d2.1 then (-1, kb3, tr3) else (0, kb3, tr3)

/-- Outcomes of the external calls consumed by one `_resetusb` attempt:
`osres` is `os_resetusb`'s return value, `fwresult` is `getfwversion`'s
outcome, `store_found` is whether `findstore` finds a stored profile,
`hwload_fail pull` is `hwloadprofile`'s outcome, and `activeMsgs` is the
command traffic the external `setactive` re-activation enqueues. -/
structure ResetEnv where
  osres : Int
  fwresult : Option Nat
  store_found : Bool
  hwload_fail : Bool → Bool
  activeMsgs : List Msg

/-- Function `_resetusb(kb, file, line)` (usb.c lines 146-172; the `file`/`line`
logging arguments are irrelevant to state and dropped): transport reset,
then empty the queue and re-initialize. A failing `os_resetusb` returns
its result unchanged; a firmware-query or hardware-profile-load failure
returns `-1`; a needed firmware update returns `0` early. -/
def _resetusb (env : ResetEnv) (kb : USBDev) : Int × USBDev × List Ev :=
  if env.osres != 0 then (env.osres, kb, [Ev.osresetEv])
  else
  let kb1 : USBDev := { kb with queue := [] }
  if !HAS_FEATURES kb1 FEAT_RGB then (0, kb1, [Ev.osresetEv])
  else
  match env.fwresult with
  | none => (-1, kb1, [Ev.osresetEv, Ev.getfwEv])
  | some v =>
    let kb2 : USBDev := { kb1 with fwversion := v }
    if NEEDS_FW_UPDATE kb2 then (0, kb2, [Ev.osresetEv, Ev.getfwEv])
    else
    let kb3 : USBDev := { kb2 with queue := kb2.queue ++ env.activeMsgs }
    let tr3 : List Ev := [Ev.osresetEv, Ev.getfwEv, Ev.setactiveEv kb2.active]
    -- If the hardware profile has not been loaded yet, load it here
    let loaded : Option Bool :=
      if !kb3.hw then (if env.store_found then some false else some true)
      else none
    let hwfail : Bool := match loaded with
      | some pull => env.hwload_fail pull
      | none => false
    let kb4 : USBDev := { kb3 with hw := kb3.hw || !hwfail }
    let tr4 := tr3 ++
      (match loaded with
       | some pull => [Ev.findstoreEv, Ev.hwload pull]
       | none => []) ++ [Ev.updatergbEv]
    (if hwfail then -1 else 0, kb4, tr4)

/-- Macro `resetusb(kb)`: the header macro expanding to `_resetusb` with caller
file/line. -/
def resetusb (env : ResetEnv) (kb : USBDev) : Int × USBDev × List Ev :=
  _resetusb env kb

/-- Function `usb_tryreset(kb)` (usb.c lines 174-188), observed along a finite
list of per-attempt environments: result `some (0, kb)` when an attempt
succeeds, `some (-1, kb)` when an attempt returns `-2` (the loop breaks
and gives up), `none` when every observed attempt yielded a retried
failure (the loop is still running). -/
def usb_tryreset (kb : USBDev) : List ResetEnv → Option (Int × USBDev)
  | [] => none
  | e :: es =>
    let r := resetusb e kb
    if r.1 == 0 then some (0, r.2.1)
    else if r.1 == -2 then some (-1, r.2.1)
    else usb_tryreset r.2.1 es

/-- The successive `_resetusb` results produced along a run of
`usb_tryreset` (attempt `k` starts from the state attempt `k - 1`
left behind). -/
def resultsAlong (kb : USBDev) : List ResetEnv → List Int
  | [] => []
  | e :: es =>
    let r := resetusb e kb
    r.1 :: resultsAlong r.2.1 es

/-! ### Fixtures and helper lemmas -/

/-- A fresh RGB-capable session with a live transport handle. -/
def exRGB : USBDev := { emptyDev with handle := true, features := FEAT_STD_RGB }

/-- An RGB-capable session whose transport handle is absent. -/
def exNoHandle : USBDev := { emptyDev with features := FEAT_STD_RGB }

/-- An RGB session with a live handle and a full queue. -/
def exFull : USBDev :=
  { emptyDev with handle := true, features := FEAT_STD_RGB,
                  queue := List.replicate QUEUE_LEN 0 }

/-- An RGB session with a full queue and no transport handle. -/
def exFullNoHandle : USBDev :=
  { emptyDev with features := FEAT_STD_RGB,
                  queue := List.replicate QUEUE_LEN 0 }

/-- Recognizer for profile-store insertion events. -/
def isAddstore : Ev → Bool
  | .addstoreEv _ _ => true
  | _ => false

/-- One `usbqueue` call preserves the queue-capacity bound. -/
theorem usbqueue_le_step (kb : USBDev) (ms : List Msg)
    (h : queuecount kb ≤ QUEUE_LEN) :
    queuecount (usbqueue kb ms).2 ≤ QUEUE_LEN := by
  unfold usbqueue
  split
  · exact h
  · split
    · exact h
    · next h2 =>
      simp only [queuecount, List.length_append] at *
      omega

/-- Any sequence of `usbqueue` calls preserves the queue-capacity bound. -/
theorem applyQueueCalls_le (kb : USBDev) (calls : List (List Msg))
    (h : queuecount kb ≤ QUEUE_LEN) :
    queuecount (applyQueueCalls kb calls) ≤ QUEUE_LEN := by
  induction calls generalizing kb with
  | nil => exact h
  | cons ms rest ih => exact ih _ (usbqueue_le_step kb ms h)

/-! ### C3 — enqueue on a session without a transport handle -/

/-- C3 counterexample: with the transport handle absent, `usbqueue`
returns `0` — the very same code a successful enqueue returns — rather
than a rejection result distinct from success, so the claim that the call
"reports a rejection result, not success" is false at this input. -/
theorem usbqueue_noHandle_counterexample :
    (usbqueue exNoHandle [1]).1 = 0
    ∧ (usbqueue exRGB [1]).1 = 0
    ∧ (usbqueue exRGB [1]).2.queue = [1] := by
  decide

/-- C3 (amended): for every enqueue call on a session whose transport
handle is absent, `usbqueue` refuses the call as a no-op returning `0`
(indistinguishable from the success code), leaving the queue and
queuecount unchanged. -/
theorem usbqueue_noHandle_noop (kb : USBDev) (messages : List Msg)
    (h : kb.handle = false) : usbqueue kb messages = (0, kb) := by
  simp [usbqueue, h]

/-- C3 witness: the amended statement at a concrete no-handle session. -/
theorem usbqueue_noHandle_noop_witness :
    exNoHandle.handle = false
    ∧ usbqueue exNoHandle [1, 2] = (0, exNoHandle) :=
  ⟨rfl, usbqueue_noHandle_noop exNoHandle [1, 2] rfl⟩

/-! ### C5 — queue capacity and all-or-nothing enqueue -/

/-- C5 counterexample: an enqueue whose message count added to
`queuecount` exceeds `QUEUE_LEN` does not report the rejection code `-1`
when the transport handle is absent — the call returns `0` — so the
claim's unconditional "reports rejection" is false at this input (the
queue is still left unchanged). -/
theorem usbqueue_overflow_counterexample :
    QUEUE_LEN < queuecount exFullNoHandle + [(9 : Msg)].length
    ∧ (usbqueue exFullNoHandle [9]).1 = 0
    ∧ (usbqueue exFullNoHandle [9]).2 = exFullNoHandle := by
  decide

/-- C5 (amended): for an enqueue call on a session with a transport
handle and the RGB capability, exceeding `QUEUE_LEN` yields rejection
`-1` with queue and queuecount unchanged (no partial copy), and a fitting
enqueue copies all supplied messages, advancing `queuecount` by exactly
the count; calls failing the handle/RGB guard return `0` without
mutation; consequently `queuecount` never exceeds `QUEUE_LEN` under any
sequence of enqueue operations. -/
theorem usbqueue_capacity (kb : USBDev) (messages : List Msg) :
    (kb.handle = true → HAS_FEATURES kb FEAT_RGB = true →
      QUEUE_LEN < queuecount kb + messages.length →
      usbqueue kb messages = (-1, kb))
    ∧ (kb.handle = true → HAS_FEATURES kb FEAT_RGB = true →
      queuecount kb + messages.length ≤ QUEUE_LEN →
      usbqueue kb messages = (0, { kb with queue := kb.queue ++ messages })
        ∧ queuecount (usbqueue kb messages).2
            = queuecount kb + messages.length)
    ∧ (¬(kb.handle = true ∧ HAS_FEATURES kb FEAT_RGB = true) →
      usbqueue kb messages = (0, kb))
    ∧ (∀ calls : List (List Msg), queuecount kb ≤ QUEUE_LEN →
      queuecount (applyQueueCalls kb calls) ≤ QUEUE_LEN) := by
  refine ⟨fun hh hr hov => ?_, fun hh hr hfit => ?_, fun hg => ?_,
    fun calls h => applyQueueCalls_le kb calls h⟩
  · simp only [usbqueue, hh, hr]
    simp only [queuecount] at hov
    simp [hov]
  · simp only [usbqueue, hh, hr]
    simp only [queuecount] at hfit ⊢
    simp [Nat.not_lt.mpr hfit]
  · rcases Bool.eq_false_or_eq_true kb.handle with h | h
    · rcases Bool.eq_false_or_eq_true (HAS_FEATURES kb FEAT_RGB) with h2 | h2
      · exact absurd ⟨h, h2⟩ hg
      · simp [usbqueue, h2]
    · simp [usbqueue, h]

/-- C5 witness: the amended statement instantiated — a rejected oversize
enqueue on a live RGB session, a successful fitting enqueue, a no-op
guarded call, and bound preservation over a concrete call sequence. -/
theorem usbqueue_capacity_witness :
    usbqueue exFull [9] = (-1, exFull)
    ∧ (usbqueue exRGB [1, 2]).1 = 0
    ∧ usbqueue exNoHandle [1] = (0, exNoHandle)
    ∧ queuecount (applyQueueCalls exRGB [[1], [2]]) ≤ QUEUE_LEN :=
  ⟨(usbqueue_capacity exFull [9]).1 rfl rfl (by decide),
   congrArg Prod.fst
     (((usbqueue_capacity exRGB [1, 2]).2.1 rfl rfl (by decide)).1),
   (usbqueue_capacity exNoHandle [1]).2.2.1 (by decide),
   (usbqueue_capacity exRGB []).2.2.2 [[1], [2]] (by decide)⟩

/-! ### C4 — persistence decision at teardown -/

/-- A session record whose control path exists but whose transport handle
is absent, with a nonzero firmware version. -/
def exC4 : USBDev := { emptyDev with infifo := true, fwversion := 1 }

/-- C4 counterexample: a session torn down by `closeusb` whose transport
handle is absent has `fwversion ≠ 0`, yet no profile-store entry is
created (no `addstore` call appears in the trace) — the persistence
decision is only made when a transport handle exists, so the claimed
"entry created iff `fwversion != 0`" fails at this input. -/
theorem closeusb_persistence_counterexample :
    exC4.fwversion ≠ 0
    ∧ ((closeusb exC4).2.2.all fun e => !isAddstore e) = true
    ∧ ((closeusb exC4).2.2.all fun e => !(e == Ev.freeprofileEv)) = true := by
  decide

/-- C4 (amended): for every session with a live transport handle torn
down by `closeusb`, a profile-store entry for the session's serial is
created (via `addstore`, with the in-memory profile copied into it)
exactly once if and only if `fwversion ≠ 0` at teardown time; otherwise
no entry is created and the in-memory profile's resources are freed
exactly once; handle-less teardowns make no persistence decision. -/
theorem closeusb_persistence (kb : USBDev) (hi : kb.infifo = true)
    (hh : kb.handle = true) :
    (kb.fwversion ≠ 0 →
      ((closeusb kb).2.2.count (Ev.addstoreEv kb.profile.serial kb.profile) = 1
        ∧ Ev.freeprofileEv ∉ (closeusb kb).2.2))
    ∧ (kb.fwversion = 0 →
      ((closeusb kb).2.2.count Ev.freeprofileEv = 1
        ∧ ((closeusb kb).2.2.all fun e => !isAddstore e) = true)) := by
  constructor
  · intro hf
    have hf0 : (kb.fwversion == 0) = false := by simpa using hf
    simp [closeusb, hi, hh, hf0, mOp, List.count_cons, isAddstore]
  · intro hf
    simp [closeusb, hi, hh, hf, mOp, List.count_cons, isAddstore]

/-- C4 witness: the amended statement at concrete sessions, one with
nonzero firmware version (store entry created once, profile not freed)
and one with zero (profile freed once, no store entry). -/
theorem closeusb_persistence_witness :
    ((closeusb { exRGB with infifo := true, fwversion := 7 }).2.2.count
      (Ev.addstoreEv 0 ⟨0, 0, 0, 0⟩) = 1)
    ∧ ((closeusb { exRGB with infifo := true }).2.2.count
      Ev.freeprofileEv = 1) :=
  ⟨((closeusb_persistence { exRGB with infifo := true, fwversion := 7 }
      rfl rfl).1 (by decide)).1,
   ((closeusb_persistence { exRGB with infifo := true }
      rfl rfl).2 rfl).1⟩

/-! ### C6 — idempotent teardown -/

/-- C6: `closeusb` always returns success; when the control path was
never created (or the record was already zeroed by a prior close) it is a
no-op; otherwise it removes the control path, destroys both locks and
zeroes the entire session record, and a second `closeusb` on the result
is a no-op performing no external calls (hence no double-free and no
double-unlock). -/
theorem closeusb_idempotent (kb : USBDev) :
    (closeusb kb).1 = 0
    ∧ (kb.infifo = false → closeusb kb = (0, kb, []))
    ∧ (kb.infifo = true →
        ((closeusb kb).2.1 = emptyDev
          ∧ Ev.rmdevpathEv ∈ (closeusb kb).2.2
          ∧ mOp 0 3 ∈ (closeusb kb).2.2
          ∧ mOp 1 3 ∈ (closeusb kb).2.2))
    ∧ closeusb (closeusb kb).2.1 = (0, (closeusb kb).2.1, []) := by
  rcases Bool.eq_false_or_eq_true kb.infifo with hi | hi
  · rcases Bool.eq_false_or_eq_true kb.handle with hh | hh
    · rcases Nat.eq_zero_or_pos kb.fwversion with hf | hf
      · simp [closeusb, hi, hh, hf, mOp, emptyDev]
      · have hf0 : (kb.fwversion == 0) = false := by
          simp; omega
        simp [closeusb, hi, hh, hf0, mOp, emptyDev]
    · simp [closeusb, hi, hh, mOp, emptyDev]
  · simp [closeusb, hi]

/-- C6 witness: the statement instantiated at a live session — close
returns success and zeroes the record, and a second close is a no-op. -/
theorem closeusb_idempotent_witness :
    ((closeusb { exRGB with infifo := true }).2.1 = emptyDev)
    ∧ (closeusb { exRGB with infifo := true }).1 = 0
    ∧ closeusb emptyDev = (0, emptyDev, []) :=
  ⟨((closeusb_idempotent { exRGB with infifo := true }).2.2.1 rfl).1,
   (closeusb_idempotent { exRGB with infifo := true }).1,
   (closeusb_idempotent emptyDev).2.1 rfl⟩

/-! ### C7 — reset discards the stale queue -/

/-- A reset attempt that fully succeeds: transport reset ok, firmware
version 200 reported, no stored profile, hardware load succeeds, no
re-activation traffic. -/
def eResetOK : ResetEnv := ⟨0, some 200, false, fun _ => false, []⟩

/-- A reset attempt whose transport-level reset fails with `-1`. -/
def eResetTransportFail : ResetEnv := ⟨-1, none, false, fun _ => false, []⟩

/-- A reset attempt whose transport reset succeeds but whose
firmware-version query fails. -/
def eResetFwFail : ResetEnv := ⟨0, none, false, fun _ => false, []⟩

/-- C7: for every session and every pre-reset queue, if the
transport-level reset primitive succeeds then the queue is empty
afterwards (`queuecount = 0`) whatever result the re-initialization
yields, and if the transport-level reset fails the session — in
particular `queuecount` — is left unchanged. The hypothesis fixes the
modelled re-activation traffic of the external `setactive` to be empty,
matching the spec's contract for reset. -/
theorem resetusb_discards_queue (env : ResetEnv) (kb : USBDev)
    (hm : env.activeMsgs = []) :
    (env.osres = 0 → queuecount (_resetusb env kb).2.1 = 0)
    ∧ (env.osres ≠ 0 → _resetusb env kb = (env.osres, kb, [Ev.osresetEv])) := by
  constructor
  · intro h0
    have h0f : (env.osres != 0) = false := by simp [h0]
    cases hf : env.fwresult with
    | none =>
      simp [_resetusb, h0f, hf, queuecount]
      try split <;> simp
    | some v =>
      by_cases hn : NEEDS_FW_UPDATE { kb with queue := [], fwversion := v } <;>
        simp [_resetusb, h0f, hf, hn, hm, queuecount] <;>
        try split <;> simp
  · intro h0
    have h0t : (env.osres != 0) = true := by simpa using h0
    simp [_resetusb, h0t]

/-- C7 witness: the statement at a concrete session with three stale
queued messages — a successful transport reset ends with an empty queue,
a failed one leaves the three messages pending. -/
theorem resetusb_discards_queue_witness :
    queuecount (_resetusb eResetOK { exRGB with queue := [1, 2, 3] }).2.1 = 0
    ∧ _resetusb eResetTransportFail { exRGB with queue := [1, 2, 3] }
        = (-1, { exRGB with queue := [1, 2, 3] }, [Ev.osresetEv]) :=
  ⟨(resetusb_discards_queue eResetOK { exRGB with queue := [1, 2, 3] }
      rfl).1 rfl,
   by
    have h := (resetusb_discards_queue eResetTransportFail
      { exRGB with queue := [1, 2, 3] } rfl).2 (by decide)
    simpa using h⟩

/-! ### C2 — retry policy of usb_tryreset -/

/-- C2 counterexample: an attempt whose firmware-version query fails
inside reset yields `-1` — and `usb_tryreset` does not give up on it: on
a run where the first attempt is exactly such a reinit-style failure and
the second succeeds, the loop retries and returns success, so "gives up
... if and only if a reset attempt returns the reinit-error class [the
result of a firmware-query or profile-load failure inside reset]" is
false at this input (the break code `-2` is not the result those failures
produce). -/
theorem usb_tryreset_counterexample :
    (_resetusb eResetFwFail exRGB).1 = -1
    ∧ (usb_tryreset exRGB [eResetFwFail, eResetOK]).map (fun r => r.1)
        = some 0 := by
  decide

/-- C2 (amended): `usb_tryreset` stops at the first attempt whose result
is `0` (returning success) or `-2` (giving up, returning failure),
retrying on every other failure result; the result `-2` is not what a
firmware-query failure inside reset produces — such an attempt (transport
reset succeeded, query failed) returns `-1` and is therefore retried
indefinitely; `-2` can only arise as `os_resetusb`'s own return value. In
particular, when `os_resetusb` fails with a transport error other than
`-2` five times and the sixth attempt succeeds, `usb_tryreset` returns
success on the sixth attempt. -/
theorem usb_tryreset_retry_policy :
    (∀ (kb : USBDev) (es : List ResetEnv),
      (usb_tryreset kb es).map (fun r => r.1) =
        ((resultsAlong kb es).find? (fun r => r == 0 || r == -2)).map
          (fun r => if r == 0 then 0 else -1))
    ∧ (∀ (e : ResetEnv) (kb : USBDev), HAS_FEATURES kb FEAT_RGB = true →
        e.osres = 0 → e.fwresult = none → (_resetusb e kb).1 = -1) := by
  constructor
  · intro kb es
    induction es generalizing kb with
    | nil => rfl
    | cons e rest ih =>
      simp only [usb_tryreset, resultsAlong]
      by_cases h0 : (resetusb e kb).1 = 0
      · simp [List.find?, beq_iff_eq, h0]
      · by_cases h2 : (resetusb e kb).1 = -2
        · simp [List.find?, beq_iff_eq, h0, h2]
        · have hb0 : ((resetusb e kb).1 == 0) = false :=
            beq_eq_false_iff_ne.mpr h0
          have hb2 : ((resetusb e kb).1 == -2) = false :=
            beq_eq_false_iff_ne.mpr h2
          simp [List.find?, hb0, hb2, ih]
  · intro e kb hr h0 hf
    have h0f : (e.osres != 0) = false := by simp [h0]
    have hr2 : HAS_FEATURES { kb with queue := ([] : List Msg) } FEAT_RGB
        = true := by
      simpa [HAS_FEATURES] using hr
    simp [_resetusb, h0f, hr2, hf]

/-- C2 witness: the amended statement instantiated — five transport
failures (`os_resetusb` returning `-1`) followed by a fully successful
attempt make `usb_tryreset` return success on the sixth attempt, and a
concrete firmware-query failure inside reset yields `-1`. -/
theorem usb_tryreset_retry_policy_witness :
    (usb_tryreset exRGB
        [eResetTransportFail, eResetTransportFail, eResetTransportFail,
         eResetTransportFail, eResetTransportFail, eResetOK]).map
      (fun r => r.1) = some 0
    ∧ (_resetusb eResetFwFail exNoHandle).1 = -1 :=
  ⟨by
    rw [usb_tryreset_retry_policy.1 exRGB
      [eResetTransportFail, eResetTransportFail, eResetTransportFail,
       eResetTransportFail, eResetTransportFail, eResetOK]]
    decide,
   usb_tryreset_retry_policy.2 eResetFwFail exNoHandle rfl rfl rfl⟩

/-! ### C8 — revert: firmware-pending no-op and drain-stuck abort -/

/-- A complete drain: when every attempt transmits (positive result), the
loop empties the queue in exactly `length` attempts. -/
theorem drain_all_pos (f : Nat → Int) (q : List Msg) (i : Nat)
    (h : ∀ j, j < q.length → 0 < f (i + j)) :
    drain f q i = (true, [], q.length) := by
  induction q generalizing i with
  | nil => rfl
  | cons m t ih =>
    have h0 : 0 < f i := by simpa using h 0 (Nat.succ_pos t.length)
    simp only [drain, if_neg (by omega : ¬f i ≤ 0)]
    rw [ih (i + 1) fun j hj => by
      have := h (j + 1) (by simpa using Nat.succ_lt_succ hj)
      simpa [Nat.add_assoc, Nat.add_comm 1 j] using this]
    simp

/-- A stuck drain: if the first `k` attempts transmit and attempt `k`
yields nothing while `k < length` entries remain at that point, the loop
aborts right there after `k + 1` attempts, leaving the untransmitted
suffix queued. -/
theorem drain_stuck (f : Nat → Int) (q : List Msg) (i k : Nat)
    (hk : k < q.length) (hpos : ∀ j, j < k → 0 < f (i + j))
    (hf : f (i + k) ≤ 0) :
    drain f q i = (false, q.drop k, k + 1) := by
  induction q generalizing i k with
  | nil => exact absurd hk (Nat.not_lt_zero k)
  | cons m t ih =>
    cases k with
    | zero =>
      simp only [drain, if_pos (by simpa using hf)]
      rfl
    | succ k2 =>
      have h0 : 0 < f i := by simpa using hpos 0 (Nat.succ_pos k2)
      simp only [drain, if_neg (by omega : ¬f i ≤ 0)]
      rw [ih (i + 1) k2 (by simpa using Nat.lt_of_succ_lt_succ hk)
        (fun j hj => by
          have := hpos (j + 1) (Nat.succ_lt_succ hj)
          simpa [Nat.add_assoc, Nat.add_comm 1 j] using this)
        (by simpa [Nat.add_assoc, Nat.add_comm 1 k2] using hf)]
      simp

/-- C8: `revertusb` returns success immediately, as a no-op, whenever a
firmware update is pending; and for an RGB device, if during the first
drain loop a dequeue attempt yields nothing (non-positive result) while
entries remain, it returns `-1` right there — exactly `k + 1` dequeue
attempts, no deactivation (`setactive`) step — and likewise during the
second (post-deactivation) drain loop it returns `-1` with no further
dequeue attempts. -/
theorem revertusb_spec (f g : Nat → Int) (msgs : List Msg) (kb : USBDev) :
    (NEEDS_FW_UPDATE kb = true → revertusb f g msgs kb = (0, kb, []))
    ∧ (NEEDS_FW_UPDATE kb = false → HAS_FEATURES kb FEAT_RGB = true →
      (∀ k, k < queuecount kb → (∀ j, j < k → 0 < f j) → f k ≤ 0 →
        revertusb f g msgs kb =
          (-1, { kb with queue := kb.queue.drop k },
            List.replicate (k + 1) Ev.dequeueAttemptEv))
      ∧ ((∀ j, j < queuecount kb → 0 < f j) →
        ∀ k, k < msgs.length → (∀ j, j < k → 0 < g j) → g k ≤ 0 →
          revertusb f g msgs kb =
            (-1, { kb with active := false, queue := msgs.drop k },
              List.replicate (queuecount kb) Ev.dequeueAttemptEv
                ++ [Ev.setactiveEv false]
                ++ List.replicate (k + 1) Ev.dequeueAttemptEv))) := by
  refine ⟨fun hu => ?_, fun hu hr => ⟨fun k hk hpos hf => ?_, ?_⟩⟩
  · simp [revertusb, hu]
  · have hd := drain_stuck f kb.queue 0 k hk
      (fun j hj => by simpa using hpos j hj) (by simpa using hf)
    simp [revertusb, hu, hr, hd]
  · intro hall k hk hpos hg
    have hd1 := drain_all_pos f kb.queue 0 fun j hj => by
      simpa using hall j hj
    have hd2 := drain_stuck g msgs 0 k hk
      (fun j hj => by simpa using hpos j hj) (by simpa using hg)
    simp [revertusb, hu, hr, hd1, hd2, queuecount]

/-- C8 witness: the statement instantiated — a firmware-update-pending
session reverts as a no-op; a session with three queued messages whose
second dequeue attempt yields nothing aborts with `-1` after exactly two
attempts and never deactivates; and a stuck second drain (post-
deactivation traffic of two messages, first attempt yields 0) aborts
with `-1`. -/
theorem revertusb_spec_witness :
    revertusb (fun _ => 1) (fun _ => 1) [] { exRGB with fwversion := 1 }
        = (0, { exRGB with fwversion := 1 }, [])
    ∧ revertusb (fun i => if i = 0 then 1 else 0) (fun _ => 1) []
        { exRGB with fwversion := 200, queue := [4, 5, 6] }
        = (-1, { exRGB with fwversion := 200, queue := [5, 6] },
            [Ev.dequeueAttemptEv, Ev.dequeueAttemptEv])
    ∧ revertusb (fun _ => 1) (fun _ => 0) [7, 8]
        { exRGB with fwversion := 200, queue := [4] }
        = (-1, { exRGB with
            fwversion := 200, active := false, queue := [7, 8] },
            [Ev.dequeueAttemptEv, Ev.setactiveEv false,
             Ev.dequeueAttemptEv]) := by
  refine ⟨(revertusb_spec _ _ [] { exRGB with fwversion := 1 }).1 rfl,
    ?_, ?_⟩
  · have h := ((revertusb_spec (fun i => if i = 0 then 1 else 0)
      (fun _ => 1) [] { exRGB with fwversion := 200, queue := [4, 5, 6] }).2
        (by decide) (by decide)).1 1 (by decide)
        (fun j hj => by interval_cases j <;> decide) (by decide)
    simpa using h
  · have h := ((revertusb_spec (fun _ => 1) (fun _ => 0) [7, 8]
      { exRGB with fwversion := 200, queue := [4] }).2
        (by decide) (by decide)).2
        (fun j hj => by decide) 0 (by decide)
        (fun j hj => absurd hj (Nat.not_lt_zero j)) (by decide)
    simpa using h

/-! ### C9 — non-RGB 95-class setup and capability gating -/

/-- The non-RGB standard feature set intersected with any exclusion mask
never contains the RGB bit. -/
theorem nrgb_no_rgb (mask : Nat) :
    ((FEAT_STD_NRGB &&& mask) &&& FEAT_RGB == FEAT_RGB) = false := by
  have h : (FEAT_STD_NRGB &&& mask) &&& FEAT_RGB = 0 := by
    rw [Nat.land_assoc, Nat.land_comm mask FEAT_RGB, ← Nat.land_assoc]
    show (0 : Nat) &&& mask = 0
    exact Nat.zero_and mask
  rw [h]
  decide

/-- Setup environment where both path creation and input registration
succeed and nothing else is consulted. -/
def envPlain : SetupEnv := ⟨true, true, none, none, fun _ => false⟩

/-- A non-RGB session with a live transport handle. -/
def exNRGB : USBDev :=
  { emptyDev with handle := true, features := FEAT_STD_NRGB }

/-- C9: for a vendor/product pair resolving to a non-RGB 95-class device
(`P_K95_NRGB`), `setupusb` returns success with the RGB feature bit
unset, `pollrate = -1`, the command queue never allocated and three modes
present in the profile; and for any session without the RGB capability,
every `usbqueue` call reports success without mutating the queue (so
nothing is ever queued for transmission). -/
theorem setupusb_nonrgb (env : SetupEnv) (mask : Nat) (kb : USBDev)
    (v : Int) (h1 : env.makedevpath_ok = true) (h2 : env.inputopen_ok = true)
    (hm : kb.profile.modes = 0) (hq : kb.queueAlloc = false)
    (hqu : kb.queue = []) :
    ((setupusb env mask kb v P_K95_NRGB).1 = 0
      ∧ HAS_FEATURES (setupusb env mask kb v P_K95_NRGB).2.1 FEAT_RGB = false
      ∧ (setupusb env mask kb v P_K95_NRGB).2.1.pollrate = -1
      ∧ (setupusb env mask kb v P_K95_NRGB).2.1.queueAlloc = false
      ∧ Ev.allocQueueEv ∉ (setupusb env mask kb v P_K95_NRGB).2.2
      ∧ (setupusb env mask kb v P_K95_NRGB).2.1.profile.modes = 3
      ∧ (setupusb env mask kb v P_K95_NRGB).2.1.queue = [])
    ∧ (∀ (kb2 : USBDev) (messages : List Msg),
        HAS_FEATURES kb2 FEAT_RGB = false →
          usbqueue kb2 messages = (0, kb2)) := by
  constructor
  · have hrgb : IS_RGB v P_K95_NRGB = false := by
      simp [IS_RGB, P_K95_NRGB, P_K65, P_K70, P_K95]
    simp only [P_K95_NRGB] at hrgb
    simp [setupusb, h1, h2, hrgb, HAS_FEATURES, nrgb_no_rgb, getusbmode,
      P_K95_NRGB, P_K65, P_K70, P_K70_NRGB, hm, hq, hqu, mOp]
  · intro kb2 messages hr
    simp [usbqueue, hr]

/-- C9 witness: the statement at a concrete environment — fresh session,
Corsair vendor, default mask — and a concrete capability-gated enqueue. -/
theorem setupusb_nonrgb_witness :
    (setupusb envPlain features_mask emptyDev V_CORSAIR P_K95_NRGB).1 = 0
    ∧ (setupusb envPlain features_mask emptyDev V_CORSAIR P_K95_NRGB).2.1.pollrate
        = -1
    ∧ (setupusb envPlain features_mask emptyDev V_CORSAIR
        P_K95_NRGB).2.1.profile.modes = 3
    ∧ usbqueue exNRGB [1, 2] = (0, exNRGB) :=
  ⟨((setupusb_nonrgb envPlain features_mask emptyDev V_CORSAIR
      rfl rfl rfl rfl rfl).1).1,
   ((setupusb_nonrgb envPlain features_mask emptyDev V_CORSAIR
      rfl rfl rfl rfl rfl).1).2.2.1,
   ((setupusb_nonrgb envPlain features_mask emptyDev V_CORSAIR
      rfl rfl rfl rfl rfl).1).2.2.2.2.2.1,
   (setupusb_nonrgb envPlain features_mask emptyDev V_CORSAIR
      rfl rfl rfl rfl rfl).2 exNRGB [1, 2] (by decide)⟩

/-! ### C1 — RGB setup, the firmware gate and the profile store -/

/-- The standard RGB feature set under the default mask keeps the RGB
bit. -/
theorem std_rgb_has_rgb :
    ((FEAT_STD_RGB &&& features_mask) &&& FEAT_RGB == FEAT_RGB) = true := by
  decide

/-- Setup environment whose firmware query succeeds reporting an
update-requiring version. -/
def envFwOld : SetupEnv := ⟨true, true, some 50, none, fun _ => false⟩

/-- C1 counterexample: for an RGB device (`P_K95`) whose firmware-version
query fails, `setupusb` does not return success and does not restrict
`features` to {RGB, FWVERSION, FWUPDATE} — it returns the sync-fatal code
`-2` with the full feature set — and it does consult the profile store
(`findstore` appears in the trace), falsifying the claim at this input. -/
theorem setupusb_fwfail_counterexample :
    (setupusb envPlain features_mask emptyDev V_CORSAIR P_K95).1 = -2
    ∧ ((setupusb envPlain features_mask emptyDev V_CORSAIR P_K95).2.1.features
        == (FEAT_RGB ||| FEAT_FWVERSION ||| FEAT_FWUPDATE)) = false
    ∧ Ev.findstoreEv
        ∈ (setupusb envPlain features_mask emptyDev V_CORSAIR P_K95).2.2 := by
  decide

/-- C1 (amended): for an RGB-capable device, when the firmware query
succeeds but reports an update-requiring version, `setupusb` restricts
`features` to exactly {RGB, FWVERSION, FWUPDATE}, marks the session
active and returns success without consulting the profile store (no
`findstore`, no `hwloadprofile`); when the firmware query fails,
`setupusb` instead consults `findstore` and returns the sync-fatal code
`-2`, still never calling `hwloadprofile`. -/
theorem setupusb_fw_gate (env : SetupEnv) (kb : USBDev) (v p : Int)
    (fv : Nat) (h1 : env.makedevpath_ok = true)
    (h2 : env.inputopen_ok = true) (hp : IS_RGB v p = true) :
    (env.fwresult = some fv → fv < FW_REQUIRED →
      ((setupusb env features_mask kb v p).1 = 0
        ∧ (setupusb env features_mask kb v p).2.1.features
            = (FEAT_RGB ||| FEAT_FWVERSION ||| FEAT_FWUPDATE)
        ∧ (setupusb env features_mask kb v p).2.1.active = true
        ∧ Ev.findstoreEv ∉ (setupusb env features_mask kb v p).2.2
        ∧ ∀ b, Ev.hwload b ∉ (setupusb env features_mask kb v p).2.2))
    ∧ (env.fwresult = none →
      ((setupusb env features_mask kb v p).1 = -2
        ∧ Ev.findstoreEv ∈ (setupusb env features_mask kb v p).2.2
        ∧ ∀ b, Ev.hwload b ∉ (setupusb env features_mask kb v p).2.2)) := by
  constructor
  · intro hf hlt
    simp [setupusb, h1, h2, hp, HAS_FEATURES, std_rgb_has_rgb, hf,
      NEEDS_FW_UPDATE, hlt, mOp, getusbmode]
  · intro hf
    cases hs : env.store with
    | none =>
      simp [setupusb, h1, h2, hp, HAS_FEATURES, std_rgb_has_rgb, hf, hs,
        mOp, getusbmode]
    | some st =>
      simp [setupusb, h1, h2, hp, HAS_FEATURES, std_rgb_has_rgb, hf, hs,
        mOp, getusbmode]

/-- C1 witness: the amended statement instantiated — a K95 RGB whose
query reports version 50 (update required) finishes with success and the
restricted feature set, and one whose query fails gets `-2`. -/
theorem setupusb_fw_gate_witness :
    (setupusb envFwOld features_mask emptyDev V_CORSAIR P_K95).1 = 0
    ∧ (setupusb envFwOld features_mask emptyDev V_CORSAIR P_K95).2.1.features
        = (FEAT_RGB ||| FEAT_FWVERSION ||| FEAT_FWUPDATE)
    ∧ (setupusb envPlain features_mask emptyDev V_CORSAIR P_K95).1 = -2 :=
  ⟨((setupusb_fw_gate envFwOld emptyDev V_CORSAIR P_K95 50 rfl rfl
      (by decide)).1 rfl (by decide)).1,
   ((setupusb_fw_gate envFwOld emptyDev V_CORSAIR P_K95 50 rfl rfl
      (by decide)).1 rfl (by decide)).2.1,
   ((setupusb_fw_gate envPlain emptyDev V_CORSAIR P_K95 0 rfl rfl
      (by decide)).2 rfl).1⟩

/-! ### C10 — the sync-fatal return leaves everything attached -/

/-- C10: whenever `setupusb` returns the sync-fatal code `-2`, the
session is left attached with no unwinding: control path and input
surface open, queue buffers allocated, device lock still held — and when
a stored profile was found, the session's profile has already been
overwritten with the stored profile's contents (mode count topped up to
three on the 95-class) despite the error return. -/
theorem setupusb_sync_fatal (env : SetupEnv) (mask : Nat) (kb : USBDev)
    (v p : Int) (h : (setupusb env mask kb v p).1 = -2) :
    (setupusb env mask kb v p).2.1.infifo = true
    ∧ (setupusb env mask kb v p).2.1.inputOpen = true
    ∧ (setupusb env mask kb v p).2.1.queueAlloc = true
    ∧ (setupusb env mask kb v p).2.1.mutexLocked = true
    ∧ ∀ st, env.store = some st →
        (setupusb env mask kb v p).2.1.profile =
          (if (setupusb env mask kb v p).2.1.model == 95
           then getusbmode 2 (getusbmode 1 st) else st) := by
  by_cases h1 : env.makedevpath_ok = true
  · by_cases h2 : env.inputopen_ok = true
    · by_cases hR : (((if IS_RGB v p then FEAT_STD_RGB else FEAT_STD_NRGB)
          &&& mask) &&& FEAT_RGB == FEAT_RGB) = true
      · cases hfw : env.fwresult with
        | some fv =>
          by_cases hn : fv < FW_REQUIRED
          · simp [setupusb, h1, h2, hR, HAS_FEATURES, hfw, NEEDS_FW_UPDATE, hn,
              getusbmode, mOp] at h
          · cases hs : env.store with
            | some st =>
              by_cases hw : env.hwload_fail false = true
              · simp [setupusb, h1, h2, hR, HAS_FEATURES, hfw, NEEDS_FW_UPDATE, hn,
                  hs, hw, getusbmode, mOp] at h ⊢
              · simp [setupusb, h1, h2, hR, HAS_FEATURES, hfw, NEEDS_FW_UPDATE, hn,
                  hs, hw, getusbmode, mOp] at h
            | none =>
              by_cases hw : env.hwload_fail true = true
              · simp [setupusb, h1, h2, hR, HAS_FEATURES, hfw, NEEDS_FW_UPDATE, hn,
                  hs, hw, getusbmode, mOp] at h ⊢
              · simp [setupusb, h1, h2, hR, HAS_FEATURES, hfw, NEEDS_FW_UPDATE, hn,
                  hs, hw, getusbmode, mOp] at h
        | none =>
          cases hs : env.store with
          | some st =>
            simp [setupusb, h1, h2, hR, HAS_FEATURES, hfw, hs, getusbmode, mOp] at h ⊢
          | none =>
            simp [setupusb, h1, h2, hR, HAS_FEATURES, hfw, hs, getusbmode, mOp] at h ⊢
      · simp [setupusb, h1, h2, hR, HAS_FEATURES, mOp] at h
    · simp at h2
      simp [setupusb, h1, h2, mOp] at h
  · simp at h1
    simp [setupusb, h1, mOp] at h

/-- C10 witness: the statement at a concrete environment producing `-2`
(firmware query fails, a stored profile exists): all resources remain
attached and the profile has been overwritten. -/
theorem setupusb_sync_fatal_witness :
    (setupusb ⟨true, true, none, some ⟨7, 1, 2, 1⟩, fun _ => false⟩
        features_mask emptyDev V_CORSAIR P_K95).1 = -2
    ∧ (setupusb ⟨true, true, none, some ⟨7, 1, 2, 1⟩, fun _ => false⟩
        features_mask emptyDev V_CORSAIR P_K95).2.1.mutexLocked = true :=
  ⟨by decide,
   (setupusb_sync_fatal ⟨true, true, none, some ⟨7, 1, 2, 1⟩,
      fun _ => false⟩ features_mask emptyDev V_CORSAIR P_K95
      (by decide)).2.2.2.1⟩

end Ckb
